import Mathlib

set_option maxRecDepth 100000

/-!
Verification of the RFID reader protocol/detection engine (sturdy-octo-lamp).

Shallow embedding of the Python sources:
  chafon.py            CF600 CRC and detection command
  hyb506.py            HYB506 CRC-16, frame encoder
  r200.py              R200 frame encoder (R200Command.__bytes__) and streaming
                       decoder (parse / parse_single / parse_read)
  serialinterface.py   parse_response streaming decoder
  device_detection.py  detector validators, info extraction, sweep orchestration

Bytes are modelled as Nat (machine bytes are 0..255; value-range hypotheses
appear where the Python runtime would enforce them via bytearray assignment).
Python functions that can raise (IndexError on scalar indexing, ValueError on
bytearray item assignment) are modelled as Option-returning functions, with
none for the raising executions.
-/

namespace Chafon

/-- Embeds chafon.crc, inner loop body: one round of the reflected CRC-16,
polynomial 0x8408.  Source: if uiCrcValue & 0x0001: uiCrcValue =
(uiCrcValue >> 1) ^ POLYNOMIAL else uiCrcValue = uiCrcValue >> 1. -/
def crcRound (c : Nat) : Nat :=
  if c &&& 0x0001 = 1 then (c >>> 1) ^^^ 0x8408 else c >>> 1

/-- Runs n rounds of the chafon.crc inner loop (source: for j in range(8)). -/
def crcRounds : Nat → Nat → Nat
  | 0, c => c
  | n + 1, c => crcRounds n (crcRound c)

/-- Embeds chafon.crc: per input byte, XOR the byte into the register, then
run eight rounds; initial register value 0xFFFF. -/
def crc (inbytes : List Nat) : Nat :=
  inbytes.foldl (fun c b => crcRounds 8 (c ^^^ b)) 0xFFFF

/-- Embeds chafon.rfm_module_int = bytes.fromhex("CF FF 00 50 00"). -/
def rfm_module_int : List Nat := [0xCF, 0xFF, 0x00, 0x50, 0x00]

end Chafon

namespace Hyb506

/-- Embeds hyb506.crc16, inner loop body: if crc & 1: crc ^= 0x10810, then
(unconditionally) crc >>= 1. -/
def crc16Round (c : Nat) : Nat :=
  (if c &&& 1 = 1 then c ^^^ 0x10810 else c) >>> 1

/-- Runs n rounds of the hyb506.crc16 inner loop (source: for j in range(8)). -/
def crc16Rounds : Nat → Nat → Nat
  | 0, c => c
  | n + 1, c => crc16Rounds n (crc16Round c)

/-- Embeds hyb506.crc16: per input byte, XOR the byte into the register, then
run eight rounds; initial register value 0xffff. -/
def crc16 (data : List Nat) : Nat :=
  data.foldl (fun c b => crc16Rounds 8 (c ^^^ b)) 0xffff

/-- Embeds hyb506.generate_command.  Builds
size :: reader_addr :: cmd_byte :: payload ++ [crc low byte, crc high byte]
with size = 4 + len(payload) and the CRC taken over cmd[:-2], that is over
size :: reader_addr :: cmd_byte :: payload.  Every bytearray item assignment
in the source raises ValueError for a value above 255; those executions are
modelled as none. -/
def generate_command (cmd_byte : Nat) (payload : List Nat) (reader_addr : Nat) :
    Option (List Nat) :=
  let size := 4 + payload.length
  if size ≤ 255 ∧ reader_addr ≤ 255 ∧ cmd_byte ≤ 255 ∧ ∀ b ∈ payload, b ≤ 255 then
    let body := size :: reader_addr :: cmd_byte :: payload
    let c := crc16 body
    some (body ++ [c &&& 0x00FF, (c &&& 0xFF00) >>> 8])
  else
    none

end Hyb506

namespace R200

/-- Result of one call to r200.parse: the returned byte string, whether the
message "invalid checksum" was printed at any point, and whether the message
"parse error" was printed at any point. -/
structure ParseOut where
  result : List Nat
  invalidChecksum : Bool
  parseError : Bool
deriving Repr, DecidableEq

/-- List indexing with default 0; used only at positions already checked to be
in range, mirroring Python scalar indexing inp[i] (which raises IndexError out
of range; the callers return none in that case). -/
def idx (l : List Nat) (i : Nat) : Nat := l.getD i 0

/-- Embeds r200.parse_single.  Reads msg[0], msg[1], msg[2] (IndexError, hence
none, when len(msg) < 3), slices epc = msg[3:-3], then evaluates epc[0]
(IndexError, hence none, when epc is empty; the freeslurp.cup(...).parse()
call in the 0x13 branch only prints and never raises) and returns epc. -/
def parse_single (msg : List Nat) : Option (List Nat) :=
  if msg.length < 3 then none
  else
    let epc := (msg.drop 3).take (msg.length - 3 - 3)
    if epc.length = 0 then none
    else some epc

/-- Embeds r200.parse_read.  Reads msg[0] (ul), msg[1], msg[2] (IndexError,
hence none, when len(msg) < 3), then returns data = msg[3+ul-2:-1]. -/
def parse_read (msg : List Nat) : Option (List Nat) :=
  if msg.length < 3 then none
  else
    let ul := idx msg 0
    some ((msg.drop (3 + ul - 2)).take (msg.length - 1 - (3 + ul - 2)))

/-- Embeds the while loop of r200.parse.  fuel bounds the number of loop
iterations; pos strictly increases every iteration, so fuel = len(inp) never
runs out (the fuel-exhaustion branch is unreachable from parse).  State 3 is
only reachable with pos ≥ 5, so the Nat subtraction pos - 4 in the checksum
slice inp[pos-4:pos+pl] equals the Python index arithmetic, and the slice
has length pl + 4.  In the non-returning state 3 branches the source resets
the state tuple (zeroing pl) before running pos = pos + pl, so the loop
advances pos by exactly one byte and rescans the frame body for embedded
start markers.  Scalar index accesses out of range (inp[pos+1] in states
1 and 2, inp[pos+pl+1] in state 3) raise IndexError in the source and are
modelled as none. -/
def parseLoop (inp : List Nat) (fuel pos state mt mc pl : Nat) (ic pe : Bool) :
    Option ParseOut :=
  if pos < inp.length then
    match fuel with
    | 0 => none
    | fuel + 1 =>
      if state = 0 then
        if idx inp pos = 0xAA then
          parseLoop inp fuel (pos + 1) 1 mt mc pl ic pe
        else
          parseLoop inp fuel (pos + 1) 0 mt mc pl ic pe
      else if state = 1 then
        if pos + 1 < inp.length then
          parseLoop inp fuel (pos + 2) 2 (idx inp pos) (idx inp (pos + 1)) pl ic pe
        else none
      else if state = 2 then
        if pos + 1 < inp.length then
          parseLoop inp fuel (pos + 2) 3 mt mc (idx inp pos * 256 + idx inp (pos + 1)) ic pe
        else none
      else if state = 3 then
        if pos + pl + 1 < inp.length then
          let buf := (inp.drop pos).take (pl + 1)
          if idx inp (pos + pl + 1) = 0xDD then
            let checksum_expected := idx inp (pos + pl)
            let checksum_actual := ((inp.drop (pos - 4)).take (pl + 4)).sum &&& 0xFF
            let ic := ic || decide (checksum_expected ≠ checksum_actual)
            if mt = 0x02 ∧ mc = 0x22 then
              (parse_single buf).map fun r => ⟨r, ic, pe⟩
            else if mt = 0x01 ∧ mc = 0x39 then
              (parse_read buf).map fun r => ⟨r, ic, pe⟩
            else
              parseLoop inp fuel (pos + 1) 0 0 0 0 ic pe
          else
            parseLoop inp fuel (pos + 1) 0 0 0 0 ic true
        else none
      else
        parseLoop inp fuel (pos + 1) state mt mc pl ic pe
  else
    some ⟨[], ic, pe⟩

/-- Embeds r200.parse: run the state machine from state 0 at position 0. -/
def parse (inp : List Nat) : Option ParseOut :=
  parseLoop inp inp.length 0 0 0 0 0 false false

/-- Embeds r200.R200Command.__bytes__ (for a command built with the default
payload_len, so payload_len = len(payload) and no left padding).  The frame is
AA 00 cmd lenHi lenLo payload checksum DD where the checksum is
sum(command[1:]) & 0xFF computed while the two trailing slots still hold 0.
The constructor raises ValueError for cmd outside 0..255 and the bytearray
assignment command[5+i] = payload[i] raises for a payload byte above 255;
those executions are modelled as none. -/
def r200_command_bytes (cmd : Nat) (payload : List Nat) : Option (List Nat) :=
  if cmd ≤ 255 ∧ ∀ b ∈ payload, b ≤ 255 then
    let pl := payload.length
    let body := 0x00 :: cmd :: ((pl &&& 0xFF00) >>> 8) :: (pl &&& 0x00FF) :: payload
    some (0xAA :: body ++ [body.sum &&& 0xFF, 0xDD])
  else
    none

end R200

namespace SerialInterface

open R200 (ParseOut idx)

/-- Embeds serialinterface.parse_single: reads msg[0], msg[1], msg[2]
(IndexError, hence none, when len(msg) < 3) and returns epc = msg[3:-3];
unlike r200.parse_single it never indexes into epc. -/
def parse_single (msg : List Nat) : Option (List Nat) :=
  if msg.length < 3 then none
  else some ((msg.drop 3).take (msg.length - 3 - 3))

/-- Embeds the while loop of serialinterface.parse_response.  Identical to
r200.parse except: state 0 accepts 0xAA or 0xBB and records the start byte,
state 3 compares against the matching end byte (0xDD for 0xAA, 0x7E
otherwise), and only the (0x02, 0x22) payload branch exists.  As in
r200.parse, the reset tuple zeroes pl before pos = pos + pl, so the
non-returning state 3 branches advance pos by exactly one byte. -/
def parseRespLoop (inp : List Nat) (fuel pos state mt mc pl sb : Nat) (ic pe : Bool) :
    Option ParseOut :=
  if pos < inp.length then
    match fuel with
    | 0 => none
    | fuel + 1 =>
      if state = 0 then
        if idx inp pos = 0xAA ∨ idx inp pos = 0xBB then
          parseRespLoop inp fuel (pos + 1) 1 mt mc pl (idx inp pos) ic pe
        else
          parseRespLoop inp fuel (pos + 1) 0 mt mc pl sb ic pe
      else if state = 1 then
        if pos + 1 < inp.length then
          parseRespLoop inp fuel (pos + 2) 2 (idx inp pos) (idx inp (pos + 1)) pl sb ic pe
        else none
      else if state = 2 then
        if pos + 1 < inp.length then
          parseRespLoop inp fuel (pos + 2) 3 mt mc (idx inp pos * 256 + idx inp (pos + 1)) sb ic pe
        else none
      else if state = 3 then
        if pos + pl + 1 < inp.length then
          let buf := (inp.drop pos).take (pl + 1)
          let end_byte := if sb = 0xAA then 0xDD else 0x7E
          if idx inp (pos + pl + 1) = end_byte then
            let checksum_expected := idx inp (pos + pl)
            let checksum_actual := ((inp.drop (pos - 4)).take (pl + 4)).sum &&& 0xFF
            let ic := ic || decide (checksum_expected ≠ checksum_actual)
            if mt = 0x02 ∧ mc = 0x22 then
              (parse_single buf).map fun r => ⟨r, ic, pe⟩
            else
              parseRespLoop inp fuel (pos + 1) 0 0 0 0 sb ic pe
          else
            parseRespLoop inp fuel (pos + 1) 0 0 0 0 sb ic true
        else none
      else
        parseRespLoop inp fuel (pos + 1) state mt mc pl sb ic pe
  else
    some ⟨[], ic, pe⟩

/-- Embeds serialinterface.parse_response: run the state machine from state 0
at position 0 (start_byte is first assigned before any use; 0 stands for its
initial unbound state). -/
def parse_response (inp : List Nat) : Option ParseOut :=
  parseRespLoop inp inp.length 0 0 0 0 0 0 false false

end SerialInterface

namespace DeviceDetection

open R200 (idx)

/-- Embeds device_detection.DetectedReader (port, reader_type, device_info;
the detector_class field only names the producing detector type and carries no
data relevant to the claims). -/
structure DetectedReader where
  port : String
  reader_type : String
  device_info : String
deriving Repr, DecidableEq

/-- Capability record of one DeviceDetector subclass: its reader type string,
response validator and info extractor (device_detection.DeviceDetector). -/
structure DetectorModel where
  reader_type : String
  validate_response : List Nat → Bool
  get_device_info : List Nat → String

/-- Embeds the task-list construction in
device_detection.ReaderDetectionManager.detect_all_readers_async:
for port in plausible_ports: for detector in self.detectors: append a
probe task for (port, detector). -/
def detection_tasks {α : Type} (ports : List String) (detectors : List α) :
    List (String × α) :=
  ports.flatMap fun p => detectors.map fun d => (p, d)

/-- Outcome of one gathered probe task, as seen by the result loop of
detect_all_readers_async: a DetectedReader, None (no response, failed
validation, timeout, or an exception caught inside _detect_single_reader), or
an exception object handed back by asyncio.gather(return_exceptions=True). -/
inductive ProbeOutcome where
  | success (r : DetectedReader)
  | noReader
  | exc (msg : String)
deriving Repr, DecidableEq

/-- Embeds device_detection.ReaderDetectionManager._detect_single_reader,
with the transport interaction abstracted into its result: response is the
accumulated response bytes that _send_detection_command returned, or none for
a connect failure, timeout or exception.  The Python condition
"response_data and detector.validate_response(response_data)" requires a
non-None, non-empty byte string that validates. -/
def detect_single_reader (port : String) (d : DetectorModel)
    (response : Option (List Nat)) : Option DetectedReader :=
  match response with
  | none => none
  | some data =>
    if data ≠ [] ∧ d.validate_response data = true then
      some ⟨port, d.reader_type, d.get_device_info data⟩
    else
      none

/-- Embeds the result loop of detect_all_readers_async: starting from the
cleared self.detected_readers list, append every result that is a
DetectedReader; exceptions are only printed. -/
def aggregate_results (results : List ProbeOutcome) : List DetectedReader :=
  results.foldl
    (fun acc r =>
      match r with
      | ProbeOutcome.success d => acc ++ [d]
      | _ => acc)
    []

/-- Embeds detect_all_readers_async end to end over an abstract world: build
one probe task per (port, detector) pair, gather all their outcomes, and
aggregate the DetectedReader results.  world gives each probe task its
outcome. -/
def detect_all_readers (ports : List String) (detectors : List DetectorModel)
    (world : String → DetectorModel → ProbeOutcome) : List DetectedReader :=
  aggregate_results ((detection_tasks ports detectors).map fun t => world t.1 t.2)

/-- Embeds device_detection.R200DetectorAADD.validate_response: require a
non-empty response of length at least 3, then accept exactly when
response_data[0] = 0xAA, len > 6, response_data[1] = 0x01,
response_data[2] = 0x03 and response_data[-1] = 0xDD. -/
def r200_aadd_validate_response (r : List Nat) : Bool :=
  if r.length = 0 ∨ r.length < 3 then false
  else if idx r 0 = 0xAA ∧ r.length > 6 ∧ idx r 1 = 0x01 ∧ idx r 2 = 0x03 ∧
      idx r (r.length - 1) = 0xDD then true
  else false

/-- Python bytes.decode with encoding ascii and errors ignore: keep the bytes
below 128 as characters, drop the rest. -/
def asciiDecodeIgnore (bs : List Nat) : List Char :=
  bs.filterMap fun b => if b < 128 then some (Char.ofNat b) else none

/-- Python str.strip() whitespace set for ASCII text. -/
def isPySpace (c : Char) : Bool :=
  c == ' ' || c == '\t' || c == '\n' || c == '\r' || c == '\x0b' || c == '\x0c'

/-- Python str.strip(): drop whitespace from both ends. -/
def pyStrip (s : List Char) : List Char :=
  ((s.dropWhile isPySpace).reverse.dropWhile isPySpace).reverse

/-- Embeds device_detection.R200DetectorAADD.get_device_info: for a response
of length at least 22, decode response_data[6:21] as ascii (errors ignored),
strip it, and return it unless empty; otherwise the fixed string
"R200 Reader". -/
def r200_aadd_get_device_info (r : List Nat) : String :=
  if 22 ≤ r.length then
    let t := pyStrip (asciiDecodeIgnore ((r.drop 6).take 15))
    if t.isEmpty then "R200 Reader" else String.mk t
  else "R200 Reader"

/-- Embeds device_detection.HYB506Detector.validate_response: require a
non-empty response of length at least 4, then accept exactly when
crc16(response_data[0:-2]) = (response_data[-1] << 8) | response_data[-2]. -/
def hyb506_validate_response (r : List Nat) : Bool :=
  if r.length = 0 ∨ r.length < 4 then false
  else
    let crc_expected := (idx r (r.length - 1)) <<< 8 ||| idx r (r.length - 2)
    let crc_actual := Hyb506.crc16 (r.take (r.length - 2))
    crc_actual == crc_expected

/-- Embeds device_detection.CF600Detector._get_detection_command: the probe
bytes rfm_module_int with the CF600 CRC appended high byte first. -/
def cf600_detection_command : List Nat :=
  let checksum := Chafon.crc Chafon.rfm_module_int
  Chafon.rfm_module_int ++ [(checksum &&& 0xFF00) >>> 8, checksum &&& 0xFF]

/-- Checksum slice of an R200 frame as computed by r200.parse at validation
time (inp[pos-4:pos+pl] with pos = 5): the bytes strictly between the start
marker and the checksum byte, summed modulo 256. -/
def r200_additive_checksum (frame : List Nat) : Nat :=
  ((frame.drop 1).take (frame.length - 3)).sum % 256

end DeviceDetection

namespace Sched

/-- Scheduler event of one probe task: opening or closing its serial port.
In _send_detection_command (and the detect_device_async variants) the port is
opened by SerialTransport.connect and closed by transport.disconnect in the
finally block, with await points between them (connect, write, wait_for), so
a cooperative asyncio scheduler may interleave other tasks between the open
and the close. -/
inductive PEv where
  | op (task : Nat) (port : String)
  | cl (task : Nat) (port : String)
deriving Repr, DecidableEq

/-- Port lifecycle trace of one probe task: open its port, later close it. -/
def probeTrace (i : Nat) (p : String) : List PEv := [PEv.op i p, PEv.cl i p]

/-- Decides whether s is an interleaving of the given task traces: each step
of s consumes the head of one trace, and all traces end exhausted.  The
schedules asyncio.gather allows for independent tasks whose events are
separated by await points are exactly the interleavings of their traces;
detect_all_readers_async gathers all probe tasks at once and takes no lock,
so every interleaving is admissible. -/
def isInterleaving : List (List PEv) → List PEv → Bool
  | tss, [] => tss.all List.isEmpty
  | tss, e :: rest =>
    (List.range tss.length).any fun k =>
      match tss.getD k [] with
      | [] => false
      | e' :: tl => if e' = e then isInterleaving (tss.set k tl) rest else false

/-- Set of (task, port) pairs whose port is open after the given events. -/
def openPairs (s : List PEv) : List (Nat × String) :=
  s.foldl
    (fun acc e =>
      match e with
      | PEv.op i p => (i, p) :: acc
      | PEv.cl i p => acc.erase (i, p))
    []

/-- True when, at some prefix of the schedule, two distinct tasks hold the
same port open simultaneously. -/
def samePortOpenTwice (s : List PEv) : Bool :=
  (List.range (s.length + 1)).any fun n =>
    let o := openPairs (s.take n)
    o.any fun a => o.any fun b => a.1 != b.1 && a.2 == b.2

end Sched


namespace Hyb506

/-- Modelled from the claim wording for the HYB506 CRC (C5): a round in which
the constant 0x10810 is XORed into the register before the shift independent
of whether the low bit of the register is set, followed by a right shift by
one.  Written from the claim text, to be compared against crc16Round. -/
def crc16RoundClaimed (c : Nat) : Nat := (c ^^^ 0x10810) >>> 1

/-- Runs n rounds of the claimed (unconditional-XOR) round. -/
def crc16RoundsClaimed : Nat → Nat → Nat
  | 0, c => c
  | n + 1, c => crc16RoundsClaimed n (crc16RoundClaimed c)

/-- The CRC the claim text describes: per input byte XORed into the register,
eight unconditional-XOR-then-shift rounds, initial value 0xffff. -/
def crc16Claimed (data : List Nat) : Nat :=
  data.foldl (fun c b => crc16RoundsClaimed 8 (c ^^^ b)) 0xffff

/-- Statement of the amended claim for crc16, written from its words: per
input byte XORed into the register, eight rounds in which 0x10810 is XORed in
exactly when the low bit of the register (the register modulo 2) is set,
followed by a right shift by one (division by two). -/
def crc16Described (data : List Nat) : Nat :=
  data.foldl
    (fun c b =>
      (List.range 8).foldl
        (fun c _ => (if c % 2 = 1 then c ^^^ 0x10810 else c) / 2) (c ^^^ b))
    0xffff

end Hyb506

namespace DeviceDetection

/-- Embeds device_detection.HYB506Detector.get_device_info: for a response of
length at least 4, report the length byte response_data[0]; otherwise the
fixed string. -/
def hyb506_get_device_info (r : List Nat) : String :=
  if 4 ≤ r.length then
    "HYB506 Reader (Length: " ++ toString (R200.idx r 0) ++ ")"
  else "HYB506 Reader"

/-- The R200 AADD detector as a capability record (device_detection.R200DetectorAADD). -/
def r200_aadd_detector : DetectorModel :=
  ⟨"R200 (AADD)", r200_aadd_validate_response, r200_aadd_get_device_info⟩

/-- The HYB506 detector as a capability record (device_detection.HYB506Detector). -/
def hyb506_detector : DetectorModel :=
  ⟨"HYB506", hyb506_validate_response, hyb506_get_device_info⟩

end DeviceDetection

/-!  Helper lemmas  -/

/-- Masking with 0xFF is reduction modulo 256. -/
theorem and_255_eq_mod (a : Nat) : a &&& 0xFF = a % 256 := by
  have h : (0xFF : Nat) = 2 ^ 8 - 1 := by norm_num
  have h2 : (256 : Nat) = 2 ^ 8 := by norm_num
  apply Nat.eq_of_testBit_eq
  intro i
  rw [Nat.testBit_and, h, Nat.testBit_two_pow_sub_one, h2, Nat.testBit_mod_two_pow,
    Bool.and_comm]

/-- Right shift distributes over XOR. -/
theorem shiftRight_xor (a b k : Nat) : (a ^^^ b) >>> k = (a >>> k) ^^^ (b >>> k) := by
  apply Nat.eq_of_testBit_eq
  intro i
  simp [Nat.testBit_shiftRight, Nat.testBit_xor]

/-- For a 16-bit value, masking the high byte and shifting gives the high byte. -/
theorem and_ff00_shiftRight_eq_div {c : Nat} (h : c < 65536) :
    (c &&& 0xFF00) >>> 8 = c / 256 := by
  apply Nat.eq_of_testBit_eq
  intro i
  have h256 : (256 : Nat) = 2 ^ 8 := by norm_num
  rw [Nat.testBit_shiftRight, Nat.testBit_and, h256, ← Nat.shiftRight_eq_div_pow,
    Nat.testBit_shiftRight]
  by_cases hi : i < 8
  · have hb : (0xFF00 : Nat).testBit (8 + i) = true := by
      interval_cases i <;> decide
    simp [hb]
  · have hb : c.testBit (8 + i) = false := by
      apply Nat.testBit_lt_two_pow
      calc c < 65536 := h
        _ = 2 ^ 16 := by norm_num
        _ ≤ 2 ^ (8 + i) := Nat.pow_le_pow_right (by norm_num) (by omega)
    simp [hb]

/-- Recombining high byte and low byte recovers the value. -/
theorem div_shiftLeft_lor_mod (c : Nat) : ((c / 256) <<< 8) ||| (c % 256) = c := by
  apply Nat.eq_of_testBit_eq
  intro i
  rw [Nat.testBit_or, Nat.testBit_shiftLeft]
  by_cases hi : i < 8
  · have h1 : decide (i ≥ 8) = false := by simp; omega
    have h2 : (c % 256).testBit i = c.testBit i := by
      have h256 : (256 : Nat) = 2 ^ 8 := by norm_num
      rw [h256, Nat.testBit_mod_two_pow]
      simp [hi]
    simp [h1, h2]
  · have h1 : decide (i ≥ 8) = true := by simp; omega
    have h2 : (c % 256).testBit i = false := by
      apply Nat.testBit_lt_two_pow
      calc c % 256 < 256 := Nat.mod_lt _ (by norm_num)
        _ = 2 ^ 8 := by norm_num
        _ ≤ 2 ^ i := Nat.pow_le_pow_right (by norm_num) (by omega)
    have h3 : (c / 256).testBit (i - 8) = c.testBit i := by
      have h256 : (256 : Nat) = 2 ^ 8 := by norm_num
      rw [h256, ← Nat.shiftRight_eq_div_pow, Nat.testBit_shiftRight]
      congr 1
      omega
    simp [h1, h2, h3]

/-- Splitting a 16-bit value the way the encoders do and recombining it the
way the validators do is the identity. -/
theorem hi_lo_recombine {c : Nat} (h : c < 65536) :
    (((c &&& 0xFF00) >>> 8) <<< 8) ||| (c &&& 0xFF) = c := by
  rw [and_ff00_shiftRight_eq_div h, and_255_eq_mod, div_shiftLeft_lor_mod]

/-- The HYB506 round (conditional XOR with 0x10810 before the shift) agrees
with the CF600 round (shift, then conditional XOR with 0x8408). -/
theorem crc16Round_eq_crcRound (c : Nat) : Hyb506.crc16Round c = Chafon.crcRound c := by
  unfold Hyb506.crc16Round Chafon.crcRound
  by_cases h : c &&& 1 = 1
  · rw [if_pos h, if_pos h, shiftRight_xor]
    congr 1
  · rw [if_neg h, if_neg h]

/-- n HYB506 rounds agree with n CF600 rounds. -/
theorem crc16Rounds_eq_crcRounds (n : Nat) : ∀ c, Hyb506.crc16Rounds n c = Chafon.crcRounds n c := by
  induction n with
  | zero => intro c; rfl
  | succ n ih =>
    intro c
    rw [Hyb506.crc16Rounds, Chafon.crcRounds, crc16Round_eq_crcRound, ih]

/-- The two CRC functions are extensionally equal. -/
theorem crc16_eq_crc (data : List Nat) : Hyb506.crc16 data = Chafon.crc data := by
  unfold Hyb506.crc16 Chafon.crc
  have hf : (fun c b => Hyb506.crc16Rounds 8 (c ^^^ b))
      = fun (c b : Nat) => Chafon.crcRounds 8 (c ^^^ b) := by
    funext c b
    exact crc16Rounds_eq_crcRounds 8 (c ^^^ b)
  rw [hf]

/-- One CF600 round stays below 2^16. -/
theorem crcRound_lt {c : Nat} (h : c < 65536) : Chafon.crcRound c < 65536 := by
  unfold Chafon.crcRound
  have h1 : c >>> 1 < 65536 := by
    rw [Nat.shiftRight_one]
    omega
  by_cases hb : c &&& 1 = 1
  · simp only [hb, if_pos rfl, if_true]
    have h2 : (65536 : Nat) = 2 ^ 16 := by norm_num
    rw [h2] at h1 ⊢
    exact Nat.xor_lt_two_pow h1 (by norm_num)
  · simp only [hb, if_false, if_neg hb]
    exact h1

/-- n CF600 rounds stay below 2^16. -/
theorem crcRounds_lt (n : Nat) : ∀ {c : Nat}, c < 65536 → Chafon.crcRounds n c < 65536 := by
  induction n with
  | zero => intro c h; exact h
  | succ n ih =>
    intro c h
    rw [Chafon.crcRounds]
    exact ih (crcRound_lt h)

/-- The CF600 CRC of a byte list is a 16-bit value. -/
theorem crc_lt (data : List Nat) (hd : ∀ b ∈ data, b < 256) : Chafon.crc data < 65536 := by
  unfold Chafon.crc
  have key : ∀ (l : List Nat), (∀ b ∈ l, b < 256) → ∀ c : Nat, c < 65536 →
      l.foldl (fun c b => Chafon.crcRounds 8 (c ^^^ b)) c < 65536 := by
    intro l
    induction l with
    | nil => intro _ c hc; exact hc
    | cons x xs ih =>
      intro hl c hc
      rw [List.foldl_cons]
      refine ih (fun b hb => hl b (List.mem_cons_of_mem _ hb)) _ ?_
      refine crcRounds_lt 8 ?_
      have hx : x < 256 := hl x (List.mem_cons_self _ _)
      have h2 : (65536 : Nat) = 2 ^ 16 := by norm_num
      rw [h2]
      exact Nat.xor_lt_two_pow (by omega) (by omega)
  exact key data hd 0xFFFF (by norm_num)

/-- The HYB506 CRC of a byte list is a 16-bit value. -/
theorem crc16_lt (data : List Nat) (hd : ∀ b ∈ data, b < 256) : Hyb506.crc16 data < 65536 := by
  rw [crc16_eq_crc]
  exact crc_lt data hd

/-!  Claim theorems  -/

/-- C4: the CF600 CRC of the probe command bytes CF FF 00 50 00 is 0x0726, and
appending it high byte first (as CF600Detector._get_detection_command does)
yields exactly the wire bytes CF FF 00 50 00 07 26. -/
theorem cf600_probe_crc_bitexact :
    Chafon.crc Chafon.rfm_module_int = 0x0726 ∧
    DeviceDetection.cf600_detection_command = [0xCF, 0xFF, 0x00, 0x50, 0x00, 0x07, 0x26] := by
  constructor
  · decide
  · decide

/-- C5 counterexample: hyb506.crc16 does not compute the rounds the claim
describes (XOR with 0x10810 before the shift independent of the low bit);
on the single-byte input 0x00 the two computations differ. -/
theorem hyb506_crc16_not_unconditional_xor :
    Hyb506.crc16 [0x00] ≠ Hyb506.crc16Claimed [0x00] := by
  decide

/-- C5 amended: for every input byte sequence, hyb506.crc16 computes, per
input byte XORed into the register, eight rounds in which the constant
0x10810 is XORed into the register before the shift exactly when the low bit
of the register is set, followed by a right shift by one. -/
theorem hyb506_crc16_conditional_xor_before_shift (data : List Nat) :
    Hyb506.crc16 data = Hyb506.crc16Described data := by
  unfold Hyb506.crc16 Hyb506.crc16Described
  have hround : ∀ c : Nat,
      (if c % 2 = 1 then c ^^^ 0x10810 else c) / 2 = Hyb506.crc16Round c := by
    intro c
    rw [Hyb506.crc16Round, Nat.and_one_is_mod, Nat.shiftRight_one]
  have hf : (fun (c b : Nat) =>
        (List.range 8).foldl
          (fun c _ => (if c % 2 = 1 then c ^^^ 0x10810 else c) / 2) (c ^^^ b))
      = fun (c b : Nat) => Hyb506.crc16Rounds 8 (c ^^^ b) := by
    funext c b
    simp only [hround]
    rfl
  rw [hf]

/-- C6: on every byte sequence, hyb506.crc16 and chafon.crc return the same
value, and that value fits in 16 bits. -/
theorem hyb506_crc16_eq_chafon_crc_16bit (data : List Nat) (h : ∀ b ∈ data, b < 256) :
    Hyb506.crc16 data = Chafon.crc data ∧ Hyb506.crc16 data < 65536 :=
  ⟨crc16_eq_crc data, crc16_lt data h⟩

/-- C6 witness: the equality and the 16-bit bound evaluated on the CF600 probe
bytes. -/
theorem hyb506_crc16_eq_chafon_crc_16bit_witness :
    (∀ b ∈ [0xCF, 0xFF, 0x00, 0x50, 0x00], b < 256) ∧
    (Hyb506.crc16 [0xCF, 0xFF, 0x00, 0x50, 0x00] = Chafon.crc [0xCF, 0xFF, 0x00, 0x50, 0x00] ∧
     Hyb506.crc16 [0xCF, 0xFF, 0x00, 0x50, 0x00] < 65536) :=
  ⟨by decide, hyb506_crc16_eq_chafon_crc_16bit [0xCF, 0xFF, 0x00, 0x50, 0x00] (by decide)⟩

/-- C8: the 23-byte R200 AADD module-info response has additive checksum 0x92
(sum of the bytes between the start marker and the checksum byte modulo 256),
is accepted by R200DetectorAADD.validate_response, and its info extraction
yields exactly the string "M100 26dBm V1.0". -/
theorem r200_aadd_example_response :
    DeviceDetection.r200_additive_checksum
        [0xAA, 0x01, 0x03, 0x00, 0x10, 0x00, 0x4D, 0x31, 0x30, 0x30, 0x20, 0x32,
         0x36, 0x64, 0x42, 0x6D, 0x20, 0x56, 0x31, 0x2E, 0x30, 0x92, 0xDD] = 0x92 ∧
    DeviceDetection.r200_aadd_validate_response
        [0xAA, 0x01, 0x03, 0x00, 0x10, 0x00, 0x4D, 0x31, 0x30, 0x30, 0x20, 0x32,
         0x36, 0x64, 0x42, 0x6D, 0x20, 0x56, 0x31, 0x2E, 0x30, 0x92, 0xDD] = true ∧
    DeviceDetection.r200_aadd_get_device_info
        [0xAA, 0x01, 0x03, 0x00, 0x10, 0x00, 0x4D, 0x31, 0x30, 0x30, 0x20, 0x32,
         0x36, 0x64, 0x42, 0x6D, 0x20, 0x56, 0x31, 0x2E, 0x30, 0x92, 0xDD]
      = "M100 26dBm V1.0" := by
  refine ⟨by decide, by decide, ?_⟩
  decide

/-- C1 counterexample: a structurally complete R200 single-read response
frame whose stored checksum byte 0x00 differs from the additive checksum 0xD2
of the bytes between the start marker and the checksum byte.  r200.parse and
serialinterface.parse_response print "invalid checksum" but still return the
EPC bytes sliced out of the payload, so the corrupt frame is not withheld. -/
theorem r200_parse_returns_payload_despite_bad_checksum :
    R200.idx
        [0xAA, 0x02, 0x22, 0x00, 0x08, 0xC8, 0x00, 0x00, 0x11, 0x22, 0x33, 0xAB,
         0xCD, 0x00, 0xDD] 13
      ≠ DeviceDetection.r200_additive_checksum
        [0xAA, 0x02, 0x22, 0x00, 0x08, 0xC8, 0x00, 0x00, 0x11, 0x22, 0x33, 0xAB,
         0xCD, 0x00, 0xDD] ∧
    R200.parse
        [0xAA, 0x02, 0x22, 0x00, 0x08, 0xC8, 0x00, 0x00, 0x11, 0x22, 0x33, 0xAB,
         0xCD, 0x00, 0xDD]
      = some ⟨[0x11, 0x22, 0x33], true, false⟩ ∧
    SerialInterface.parse_response
        [0xAA, 0x02, 0x22, 0x00, 0x08, 0xC8, 0x00, 0x00, 0x11, 0x22, 0x33, 0xAB,
         0xCD, 0x00, 0xDD]
      = some ⟨[0x11, 0x22, 0x33], true, false⟩ ∧
    ([0x11, 0x22, 0x33] : List Nat) ≠ [] := by
  refine ⟨by decide, by decide, by decide, by decide⟩

/-- C2 counterexample: encoding command 0x22 with payload 01..07 and decoding
the resulting buffer with r200.parse yields the empty result (with a valid
checksum and no parse error), not a frame carrying the original command id
and payload: parse only extracts payloads of reader-to-host response frames
of types (0x02, 0x22) and (0x01, 0x39), and an encoded command has direction
byte 0x00. -/
theorem r200_roundtrip_returns_empty :
    R200.r200_command_bytes 0x22 [1, 2, 3, 4, 5, 6, 7]
      = some [0xAA, 0x00, 0x22, 0x00, 0x07, 1, 2, 3, 4, 5, 6, 7, 0x45, 0xDD] ∧
    R200.parse [0xAA, 0x00, 0x22, 0x00, 0x07, 1, 2, 3, 4, 5, 6, 7, 0x45, 0xDD]
      = some ⟨[], false, false⟩ ∧
    ([1, 2, 3, 4, 5, 6, 7] : List Nat) ≠ [] := by
  refine ⟨by decide, by decide, by decide⟩

/-- C3 counterexample: on the truncated buffer AA 01 (start marker plus one
header byte) both decoders evaluate inp[pos+1] out of range and raise
IndexError (modelled as none) instead of reporting the frame as incomplete by
returning the empty result. -/
theorem r200_parse_index_error_on_truncated_frame :
    R200.parse [0xAA, 0x01] = none ∧
    SerialInterface.parse_response [0xAA, 0x01] = none := by
  refine ⟨by decide, by decide⟩

/-- aggregate_results equals the filterMap keeping DetectedReader outcomes. -/
theorem aggregate_results_eq_filterMap (results : List DeviceDetection.ProbeOutcome) :
    DeviceDetection.aggregate_results results
      = results.filterMap (fun r =>
          match r with
          | DeviceDetection.ProbeOutcome.success d => some d
          | _ => none) := by
  unfold DeviceDetection.aggregate_results
  have key : ∀ (l : List DeviceDetection.ProbeOutcome)
      (acc : List DeviceDetection.DetectedReader),
      l.foldl
        (fun acc r =>
          match r with
          | DeviceDetection.ProbeOutcome.success d => acc ++ [d]
          | _ => acc) acc
      = acc ++ l.filterMap (fun r =>
          match r with
          | DeviceDetection.ProbeOutcome.success d => some d
          | _ => none) := by
    intro l
    induction l with
    | nil => intro acc; simp
    | cons x xs ih =>
      intro acc
      cases x with
      | success d => simp [List.foldl_cons, List.filterMap_cons, ih]
      | noReader => simp [List.foldl_cons, List.filterMap_cons, ih]
      | exc m => simp [List.foldl_cons, List.filterMap_cons, ih]
  exact key results []

/-- C9: a detection sweep over N ports and M registered detectors creates
exactly N times M probe tasks (so at most N times M probes are issued); in
the aggregation loop an outcome that is an exception object (as delivered by
gather with return_exceptions=True) or a None result (timeout, validation
failure, caught exception) contributes no DetectedReader and leaves every
other outcome contribution in the result list unchanged; and a probe whose
transport produced no response yields no DetectedReader. -/
theorem detection_sweep_probe_count_and_isolation
    (ports : List String) (detectors : List DeviceDetection.DetectorModel)
    (xs ys : List DeviceDetection.ProbeOutcome) (e : String)
    (port : String) (d : DeviceDetection.DetectorModel) :
    (DeviceDetection.detection_tasks ports detectors).length
        = ports.length * detectors.length ∧
    DeviceDetection.aggregate_results (xs ++ DeviceDetection.ProbeOutcome.exc e :: ys)
        = DeviceDetection.aggregate_results xs ++ DeviceDetection.aggregate_results ys ∧
    DeviceDetection.aggregate_results (xs ++ DeviceDetection.ProbeOutcome.noReader :: ys)
        = DeviceDetection.aggregate_results xs ++ DeviceDetection.aggregate_results ys ∧
    DeviceDetection.detect_single_reader port d none = none := by
  refine ⟨?_, ?_, ?_, rfl⟩
  · unfold DeviceDetection.detection_tasks
    induction ports with
    | nil => simp
    | cons p ps ih =>
      simp only [List.flatMap_cons, List.length_append, List.length_map, ih,
        List.length_cons]
      ring
  · rw [aggregate_results_eq_filterMap, aggregate_results_eq_filterMap,
      aggregate_results_eq_filterMap, List.filterMap_append, List.filterMap_cons]
  · rw [aggregate_results_eq_filterMap, aggregate_results_eq_filterMap,
      aggregate_results_eq_filterMap, List.filterMap_append, List.filterMap_cons]

/-- C10 counterexample: with one port and two registered detectors the sweep
gathers two probe tasks targeting the same port, and the schedule
open0 open1 close0 close1 is an admissible interleaving of their open/close
traces under the cooperative scheduler (detect_all_readers_async passes all
tasks to one asyncio.gather call and takes no per-port lock, and each probe
suspends at await points between opening and closing its transport); in that
schedule both probes hold /dev/ttyUSB0 open at the same time. -/
theorem detection_sweep_same_port_concurrent_open :
    (DeviceDetection.detection_tasks ["/dev/ttyUSB0"]
        [DeviceDetection.r200_aadd_detector, DeviceDetection.hyb506_detector]).map
        Prod.fst
      = ["/dev/ttyUSB0", "/dev/ttyUSB0"] ∧
    Sched.isInterleaving
        [Sched.probeTrace 0 "/dev/ttyUSB0", Sched.probeTrace 1 "/dev/ttyUSB0"]
        [Sched.PEv.op 0 "/dev/ttyUSB0", Sched.PEv.op 1 "/dev/ttyUSB0",
         Sched.PEv.cl 0 "/dev/ttyUSB0", Sched.PEv.cl 1 "/dev/ttyUSB0"] = true ∧
    Sched.samePortOpenTwice
        [Sched.PEv.op 0 "/dev/ttyUSB0", Sched.PEv.op 1 "/dev/ttyUSB0",
         Sched.PEv.cl 0 "/dev/ttyUSB0", Sched.PEv.cl 1 "/dev/ttyUSB0"] = true := by
  refine ⟨rfl, by decide, by decide⟩

/-- C10 amended: the orchestrator does not serialize probes that target the
same port: every (port, detector) pair becomes its own task in one concurrent
gather, so a port with two registered detectors (whatever they are) gets two
concurrently scheduled probes, and a schedule in which both hold the port
open at once is an admissible interleaving of their traces. -/
theorem detection_sweep_no_port_serialization
    (d₁ d₂ : DeviceDetection.DetectorModel) :
    (DeviceDetection.detection_tasks ["/dev/ttyUSB0"] [d₁, d₂]).map Prod.fst
      = ["/dev/ttyUSB0", "/dev/ttyUSB0"] ∧
    Sched.isInterleaving
        [Sched.probeTrace 0 "/dev/ttyUSB0", Sched.probeTrace 1 "/dev/ttyUSB0"]
        [Sched.PEv.op 0 "/dev/ttyUSB0", Sched.PEv.op 1 "/dev/ttyUSB0",
         Sched.PEv.cl 0 "/dev/ttyUSB0", Sched.PEv.cl 1 "/dev/ttyUSB0"] = true ∧
    Sched.samePortOpenTwice
        [Sched.PEv.op 0 "/dev/ttyUSB0", Sched.PEv.op 1 "/dev/ttyUSB0",
         Sched.PEv.cl 0 "/dev/ttyUSB0", Sched.PEv.cl 1 "/dev/ttyUSB0"] = true := by
  refine ⟨rfl, by decide, by decide⟩

/-- C7: for every command byte, reader address and payload (within the byte
ranges the bytearray assignments enforce, and with the length byte
4 + len(payload) fitting in a byte), hyb506.generate_command produces the
frame len :: addr :: cmd :: payload ++ [crcLo, crcHi] whose trailing CRC is
computed over all preceding bytes and written low byte first, and
HYB506Detector.validate_response accepts that frame. -/
theorem hyb506_encode_validate_roundtrip
    (cmd_byte reader_addr : Nat) (payload : List Nat)
    (hlen : payload.length ≤ 251) (haddr : reader_addr ≤ 255)
    (hcmd : cmd_byte ≤ 255) (hp : ∀ b ∈ payload, b ≤ 255) :
    Hyb506.generate_command cmd_byte payload reader_addr
      = some (((4 + payload.length) :: reader_addr :: cmd_byte :: payload)
          ++ [Hyb506.crc16 ((4 + payload.length) :: reader_addr :: cmd_byte :: payload)
                &&& 0x00FF,
              (Hyb506.crc16 ((4 + payload.length) :: reader_addr :: cmd_byte :: payload)
                &&& 0xFF00) >>> 8]) ∧
    DeviceDetection.hyb506_validate_response
        (((4 + payload.length) :: reader_addr :: cmd_byte :: payload)
          ++ [Hyb506.crc16 ((4 + payload.length) :: reader_addr :: cmd_byte :: payload)
                &&& 0x00FF,
              (Hyb506.crc16 ((4 + payload.length) :: reader_addr :: cmd_byte :: payload)
                &&& 0xFF00) >>> 8]) = true := by
  have hsize : 4 + payload.length ≤ 255 := by omega
  constructor
  · unfold Hyb506.generate_command
    rw [if_pos ⟨hsize, haddr, hcmd, hp⟩]
  · set body : List Nat := (4 + payload.length) :: reader_addr :: cmd_byte :: payload
      with hbody
    set c : Nat := Hyb506.crc16 body with hc
    have hbodylen : body.length = 3 + payload.length := by
      rw [hbody]
      simp
      omega
    have hbytes : ∀ b ∈ body, b < 256 := by
      intro b hb
      rw [hbody] at hb
      rcases hb with _ | ⟨_, _ | ⟨_, _ | ⟨_, hb⟩⟩⟩
      · omega
      · omega
      · omega
      · exact Nat.lt_of_le_of_lt (hp _ hb) (by omega)
    have hclt : c < 65536 := by
      rw [hc]
      exact crc16_lt body hbytes
    unfold DeviceDetection.hyb506_validate_response
    have hlen2 : (body ++ [c &&& 0x00FF, (c &&& 0xFF00) >>> 8]).length
        = payload.length + 5 := by
      simp [hbodylen]
      omega
    rw [if_neg (by rw [hlen2]; omega)]
    have h1 : R200.idx (body ++ [c &&& 0x00FF, (c &&& 0xFF00) >>> 8])
        ((body ++ [c &&& 0x00FF, (c &&& 0xFF00) >>> 8]).length - 1)
        = (c &&& 0xFF00) >>> 8 := by
      unfold R200.idx
      rw [hlen2, List.getD_append_right _ _ _ _ (by rw [hbodylen]; omega), hbodylen]
      have : payload.length + 5 - 1 - (3 + payload.length) = 1 := by omega
      rw [this]
      rfl
    have h2 : R200.idx (body ++ [c &&& 0x00FF, (c &&& 0xFF00) >>> 8])
        ((body ++ [c &&& 0x00FF, (c &&& 0xFF00) >>> 8]).length - 2)
        = c &&& 0x00FF := by
      unfold R200.idx
      rw [hlen2, List.getD_append_right _ _ _ _ (by rw [hbodylen]; omega), hbodylen]
      have : payload.length + 5 - 2 - (3 + payload.length) = 0 := by omega
      rw [this]
      rfl
    have h3 : (body ++ [c &&& 0x00FF, (c &&& 0xFF00) >>> 8]).take
        ((body ++ [c &&& 0x00FF, (c &&& 0xFF00) >>> 8]).length - 2) = body := by
      rw [hlen2]
      have : payload.length + 5 - 2 = body.length := by omega
      rw [this]
      exact List.take_left' rfl
    rw [h1, h2, h3, ← hc, hi_lo_recombine hclt]
    simp

/-- C7 witness: the round trip evaluated at the HYB506 reader-info probe
command generate_command(0x21). -/
theorem hyb506_encode_validate_roundtrip_witness :
    (([] : List Nat).length ≤ 251 ∧ (0x00 : Nat) ≤ 255 ∧ (0x21 : Nat) ≤ 255 ∧
      ∀ b ∈ ([] : List Nat), b ≤ 255) ∧
    (Hyb506.generate_command 0x21 [] 0x00
        = some (((4 + ([] : List Nat).length) :: 0x00 :: 0x21 :: ([] : List Nat))
            ++ [Hyb506.crc16 ((4 + ([] : List Nat).length) :: 0x00 :: 0x21 :: [])
                  &&& 0x00FF,
                (Hyb506.crc16 ((4 + ([] : List Nat).length) :: 0x00 :: 0x21 :: [])
                  &&& 0xFF00) >>> 8]) ∧
      DeviceDetection.hyb506_validate_response
          (((4 + ([] : List Nat).length) :: 0x00 :: 0x21 :: ([] : List Nat))
            ++ [Hyb506.crc16 ((4 + ([] : List Nat).length) :: 0x00 :: 0x21 :: [])
                  &&& 0x00FF,
                (Hyb506.crc16 ((4 + ([] : List Nat).length) :: 0x00 :: 0x21 :: [])
                  &&& 0xFF00) >>> 8]) = true) :=
  ⟨⟨by decide, by decide, by decide, by decide⟩,
    hyb506_encode_validate_roundtrip 0x21 0x00 [] (by decide) (by decide) (by decide)
      (by decide)⟩

/-- Indexing inside the bounds yields a member of the list. -/
theorem idx_mem (l : List Nat) (i : Nat) (h : i < l.length) : R200.idx l i ∈ l := by
  unfold R200.idx
  rw [List.getD_eq_getElem l 0 h]
  exact List.getElem_mem h

/-- parseLoop terminates with the running flags once pos reaches the end. -/
theorem parseLoop_exit (inp : List Nat) (fuel pos state mt mc pl : Nat) (ic pe : Bool)
    (h : ¬ pos < inp.length) :
    R200.parseLoop inp fuel pos state mt mc pl ic pe = some ⟨[], ic, pe⟩ := by
  rw [R200.parseLoop.eq_def, if_neg h]

/-- parseLoop in state 0 on the start marker advances into state 1. -/
theorem parseLoop_state0_hit (inp : List Nat) (fuel pos mt mc pl : Nat) (ic pe : Bool)
    (h : pos < inp.length) (hb : R200.idx inp pos = 0xAA) :
    R200.parseLoop inp (fuel + 1) pos 0 mt mc pl ic pe
      = R200.parseLoop inp fuel (pos + 1) 1 mt mc pl ic pe := by
  rw [R200.parseLoop.eq_def, if_pos h]
  simp [hb]

/-- parseLoop in state 0 on any other byte keeps scanning. -/
theorem parseLoop_state0_miss (inp : List Nat) (fuel pos mt mc pl : Nat) (ic pe : Bool)
    (h : pos < inp.length) (hb : R200.idx inp pos ≠ 0xAA) :
    R200.parseLoop inp (fuel + 1) pos 0 mt mc pl ic pe
      = R200.parseLoop inp fuel (pos + 1) 0 mt mc pl ic pe := by
  rw [R200.parseLoop.eq_def, if_pos h]
  simp [hb]

/-- parseLoop in state 1 captures the direction and command bytes. -/
theorem parseLoop_state1 (inp : List Nat) (fuel pos mt mc pl : Nat) (ic pe : Bool)
    (h : pos < inp.length) (h2 : pos + 1 < inp.length) :
    R200.parseLoop inp (fuel + 1) pos 1 mt mc pl ic pe
      = R200.parseLoop inp fuel (pos + 2) 2 (R200.idx inp pos) (R200.idx inp (pos + 1))
          pl ic pe := by
  rw [R200.parseLoop.eq_def, if_pos h]
  simp [h2]

/-- parseLoop in state 2 captures the 16-bit payload length. -/
theorem parseLoop_state2 (inp : List Nat) (fuel pos mt mc pl : Nat) (ic pe : Bool)
    (h : pos < inp.length) (h2 : pos + 1 < inp.length) :
    R200.parseLoop inp (fuel + 1) pos 2 mt mc pl ic pe
      = R200.parseLoop inp fuel (pos + 2) 3 mt mc
          (R200.idx inp pos * 256 + R200.idx inp (pos + 1)) ic pe := by
  rw [R200.parseLoop.eq_def, if_pos h]
  simp [h2]

/-- parseLoop in state 3 on a (0x02, 0x22) frame with the end marker in place
returns the parse_single result over the payload-plus-checksum slice, with the
invalid-checksum flag updated from the additive checksum comparison. -/
theorem parseLoop_state3_single (inp : List Nat) (fuel pos pl : Nat) (ic pe : Bool)
    (h : pos < inp.length) (h3 : pos + pl + 1 < inp.length)
    (hdd : R200.idx inp (pos + pl + 1) = 0xDD) :
    R200.parseLoop inp (fuel + 1) pos 3 0x02 0x22 pl ic pe
      = (R200.parse_single ((inp.drop pos).take (pl + 1))).map
          (fun r =>
            ⟨r, ic || decide (R200.idx inp (pos + pl)
                ≠ ((inp.drop (pos - 4)).take (pl + 4)).sum &&& 0xFF), pe⟩) := by
  rw [R200.parseLoop.eq_def, if_pos h]
  simp [h3, hdd]

/-- parseLoop in state 3 with the end marker in place but a type/command pair
that is neither (0x02, 0x22) nor (0x01, 0x39) updates the invalid-checksum
flag from the additive checksum comparison and resynchronizes in state 0 one
byte further on (the source zeroes pl in the reset tuple before running
pos = pos + pl, so only the common pos = pos + 1 advances the scan). -/
theorem parseLoop_state3_other (inp : List Nat) (fuel pos mt mc pl : Nat) (ic pe : Bool)
    (h : pos < inp.length) (h3 : pos + pl + 1 < inp.length)
    (hdd : R200.idx inp (pos + pl + 1) = 0xDD)
    (hmt : ¬ (mt = 0x02 ∧ mc = 0x22)) (hmr : ¬ (mt = 0x01 ∧ mc = 0x39)) :
    R200.parseLoop inp (fuel + 1) pos 3 mt mc pl ic pe
      = R200.parseLoop inp fuel (pos + 1) 0 0 0 0
          (ic || decide (R200.idx inp (pos + pl)
              ≠ ((inp.drop (pos - 4)).take (pl + 4)).sum &&& 0xFF)) pe := by
  rw [R200.parseLoop.eq_def, if_pos h]
  simp [h3, hdd, hmt, hmr]

/-- Running r200.parse over a buffer that opens with the start marker and at
least four further bytes reaches state 3 at position 5 with the direction
byte, the command byte and the 16-bit length field captured. -/
theorem parse_header_steps (b1 b2 b3 b4 : Nat) (tail : List Nat) :
    R200.parse (0xAA :: b1 :: b2 :: b3 :: b4 :: tail)
      = R200.parseLoop (0xAA :: b1 :: b2 :: b3 :: b4 :: tail) (tail.length + 2) 5 3
          b1 b2 (b3 * 256 + b4) false false := by
  have hlen : (0xAA :: b1 :: b2 :: b3 :: b4 :: tail).length = tail.length + 5 := by
    simp
  have h0 : (0 : Nat) < (0xAA :: b1 :: b2 :: b3 :: b4 :: tail).length := by
    rw [hlen]; omega
  have h1 : (1 : Nat) < (0xAA :: b1 :: b2 :: b3 :: b4 :: tail).length := by
    rw [hlen]; omega
  have h2 : (1 : Nat) + 1 < (0xAA :: b1 :: b2 :: b3 :: b4 :: tail).length := by
    rw [hlen]; omega
  have h3 : (3 : Nat) < (0xAA :: b1 :: b2 :: b3 :: b4 :: tail).length := by
    rw [hlen]; omega
  have h4 : (3 : Nat) + 1 < (0xAA :: b1 :: b2 :: b3 :: b4 :: tail).length := by
    rw [hlen]; omega
  unfold R200.parse
  rw [hlen]
  rw [parseLoop_state0_hit _ (tail.length + 4) 0 0 0 0 false false h0 (by rfl)]
  norm_num
  rw [parseLoop_state1 _ (tail.length + 3) 1 0 0 0 false false h1 h2]
  norm_num [R200.idx, List.getD_cons_zero, List.getD_cons_succ]
  rw [parseLoop_state2 _ (tail.length + 2) 3 b1 b2 0 false false h3 h4]
  norm_num [R200.idx, List.getD_cons_zero, List.getD_cons_succ]

/-- Indexing past the five header bytes of a frame lands in the frame body. -/
theorem idx_cons5 (a b c d e : Nat) (t : List Nat) (i : Nat) (h : 5 ≤ i) :
    R200.idx (a :: b :: c :: d :: e :: t) i = R200.idx t (i - 5) := by
  unfold R200.idx
  obtain ⟨j, rfl⟩ : ∃ j, i = j + 5 := ⟨i - 5, by omega⟩
  have hj : j + 5 - 5 = j := by omega
  rw [hj]
  simp [List.getD_cons_succ]

/-- parseLoop in state 0 scans to the end of the buffer when no byte at or
after pos is the start marker, returning the empty result with the running
flags. -/
theorem parseLoop_scan_no_marker_from (inp : List Nat) :
    ∀ (fuel pos mt mc pl : Nat) (ic pe : Bool), inp.length ≤ pos + fuel →
    (∀ i, pos ≤ i → i < inp.length → R200.idx inp i ≠ 0xAA) →
    R200.parseLoop inp fuel pos 0 mt mc pl ic pe = some ⟨[], ic, pe⟩ := by
  intro fuel
  induction fuel with
  | zero =>
    intro pos mt mc pl ic pe hf _
    exact parseLoop_exit _ _ _ _ _ _ _ _ _ (by omega)
  | succ fuel ih =>
    intro pos mt mc pl ic pe hf hb
    by_cases h : pos < inp.length
    · rw [parseLoop_state0_miss _ fuel pos mt mc pl ic pe h (hb pos (Nat.le_refl _) h)]
      exact ih (pos + 1) mt mc pl ic pe (by omega) (fun i hi hlt => hb i (by omega) hlt)
    · exact parseLoop_exit _ _ _ _ _ _ _ _ _ h

/-- C2 amended: for every command id in 0..255 and every byte payload of
length below 2^16 whose bytes carry no spurious start marker after the header
(no payload byte is 0xAA and the checksum byte is not 0xAA), encoding with
R200Command.__bytes__ and decoding with r200.parse consumes the frame cleanly
(the end marker is found and the additive checksum matches, so neither
"parse error" nor "invalid checksum" is reported) and yields the empty
result rather than a frame carrying the original command id and payload:
parse extracts payloads only from reader-to-host responses of types
(0x02, 0x22) and (0x01, 0x39), every encoded command carries the
host-to-reader direction byte 0x00, and after consuming a frame the decoder
resumes scanning one byte further on, rescanning the remaining bytes for
embedded start markers. -/
theorem r200_encode_decode_returns_empty
    (cmd : Nat) (payload : List Nat) (hcmd : cmd ≤ 255)
    (hp : ∀ b ∈ payload, b ≤ 255) (hlen : payload.length < 65536)
    (hAA : 0xAA ∉ payload)
    (hchkAA : (0x00 :: cmd :: ((payload.length &&& 0xFF00) >>> 8) ::
        (payload.length &&& 0x00FF) :: payload).sum &&& 0xFF ≠ 0xAA) :
    R200.r200_command_bytes cmd payload
      = some (0xAA :: 0x00 :: cmd :: ((payload.length &&& 0xFF00) >>> 8) ::
          (payload.length &&& 0x00FF) ::
          (payload ++
            [(0x00 :: cmd :: ((payload.length &&& 0xFF00) >>> 8) ::
                (payload.length &&& 0x00FF) :: payload).sum &&& 0xFF, 0xDD])) ∧
    R200.parse (0xAA :: 0x00 :: cmd :: ((payload.length &&& 0xFF00) >>> 8) ::
          (payload.length &&& 0x00FF) ::
          (payload ++
            [(0x00 :: cmd :: ((payload.length &&& 0xFF00) >>> 8) ::
                (payload.length &&& 0x00FF) :: payload).sum &&& 0xFF, 0xDD]))
      = some ⟨[], false, false⟩ := by
  constructor
  · unfold R200.r200_command_bytes
    rw [if_pos ⟨hcmd, hp⟩]
    rfl
  · set L := payload.length with hL
    set hi : Nat := (L &&& 0xFF00) >>> 8 with hhi
    set lo : Nat := L &&& 0x00FF with hlo
    set chk : Nat := (0x00 :: cmd :: hi :: lo :: payload).sum &&& 0xFF with hchk
    have hhi2 : hi = L / 256 := by rw [hhi]; exact and_ff00_shiftRight_eq_div hlen
    have hlo2 : lo = L % 256 := by rw [hlo]; exact and_255_eq_mod L
    have hpl : hi * 256 + lo = L := by rw [hhi2, hlo2]; omega
    have htl : (payload ++ [chk, 0xDD]).length = L + 2 := by simp
    have hinp : (0xAA :: 0x00 :: cmd :: hi :: lo :: (payload ++ [chk, 0xDD]))
        = (0xAA :: 0x00 :: cmd :: hi :: lo :: payload) ++ [chk, 0xDD] := by
      simp
    have hilen : (0xAA :: 0x00 :: cmd :: hi :: lo :: (payload ++ [chk, 0xDD])).length
        = L + 7 := by
      simp
    have hpre : (0xAA :: 0x00 :: cmd :: hi :: lo :: payload).length = 5 + L := by
      simp
      omega
    have hdd : R200.idx (0xAA :: 0x00 :: cmd :: hi :: lo :: (payload ++ [chk, 0xDD]))
        (5 + L + 1) = 0xDD := by
      unfold R200.idx
      rw [hinp, List.getD_append_right _ _ _ _ (by rw [hpre]; omega), hpre]
      have hn : 5 + L + 1 - (5 + L) = 1 := by omega
      rw [hn]
      rfl
    have hce : R200.idx (0xAA :: 0x00 :: cmd :: hi :: lo :: (payload ++ [chk, 0xDD]))
        (5 + L) = chk := by
      unfold R200.idx
      rw [hinp, List.getD_append_right _ _ _ _ hpre.le, hpre]
      have hn : 5 + L - (5 + L) = 0 := by omega
      rw [hn]
      rfl
    have hca : (((0xAA :: 0x00 :: cmd :: hi :: lo :: (payload ++ [chk, 0xDD])).drop
          (5 - 4)).take (L + 4))
        = 0x00 :: cmd :: hi :: lo :: payload := by
      show (0x00 :: cmd :: hi :: lo :: (payload ++ [chk, 0xDD])).take (L + 4)
          = 0x00 :: cmd :: hi :: lo :: payload
      rw [List.take_succ_cons, List.take_succ_cons, List.take_succ_cons,
        List.take_succ_cons, List.take_left' hL.symm]
    rw [parse_header_steps 0x00 cmd hi lo (payload ++ [chk, 0xDD]), htl, hpl]
    rw [parseLoop_state3_other _ (L + 3) 5 0 cmd L false false
      (by rw [hilen]; omega) (by rw [hilen]; omega) hdd (by simp) (by simp)]
    rw [hce, hca, ← hchk]
    have hflag : (false || decide (chk ≠ chk)) = false := by simp
    rw [hflag]
    refine parseLoop_scan_no_marker_from
      (0xAA :: 0x00 :: cmd :: hi :: lo :: (payload ++ [chk, 0xDD])) (L + 3) (5 + 1)
      0 0 0 false false (by rw [hilen]; omega) ?_
    intro i h6 hlt
    rw [hilen] at hlt
    rw [idx_cons5 0xAA 0x00 cmd hi lo (payload ++ [chk, 0xDD]) i (by omega)]
    by_cases hj : i - 5 < payload.length
    · have hidx : R200.idx (payload ++ [chk, 0xDD]) (i - 5)
          = R200.idx payload (i - 5) := by
        unfold R200.idx
        exact List.getD_append _ _ _ _ hj
      rw [hidx]
      intro hc
      exact hAA (hc ▸ idx_mem payload (i - 5) hj)
    · have hple : payload.length ≤ i - 5 := by omega
      have hidx : R200.idx (payload ++ [chk, 0xDD]) (i - 5)
          = R200.idx [chk, 0xDD] (i - 5 - payload.length) := by
        unfold R200.idx
        rw [List.getD_append_right _ _ _ _ hple]
      rw [hidx]
      have hcase : i - 5 - payload.length = 0 ∨ i - 5 - payload.length = 1 := by
        omega
      rcases hcase with h0 | h1
      · rw [h0]
        exact hchkAA
      · rw [h1]
        show (0xDD : Nat) ≠ 0xAA
        decide

/-- C1 amended: for every structurally complete R200 single-read response
frame (direction 0x02, command 0x22, consistent length field, end marker
0xDD, payload of length 6..65535) whose stored checksum byte differs from the
additive checksum of the bytes between the start marker and the checksum
byte, r200.parse reports the mismatch ("invalid checksum" is printed, the
invalidChecksum flag is true) but nevertheless returns the EPC bytes sliced
out of the corrupt payload: materializing the result is not gated on the
checksum. -/
theorem r200_parse_flags_but_returns_bad_checksum_payload
    (payload : List Nat) (chk : Nat)
    (h6 : 6 ≤ payload.length) (hlen : payload.length < 65536)
    (hbad : chk ≠ (0x02 :: 0x22 :: ((payload.length &&& 0xFF00) >>> 8) ::
        (payload.length &&& 0x00FF) :: payload).sum &&& 0xFF) :
    R200.parse (0xAA :: 0x02 :: 0x22 :: ((payload.length &&& 0xFF00) >>> 8) ::
        (payload.length &&& 0x00FF) :: (payload ++ [chk, 0xDD]))
      = some ⟨(payload.drop 3).take (payload.length - 5), true, false⟩ ∧
    (payload.drop 3).take (payload.length - 5) ≠ [] := by
  have hne : (payload.drop 3).take (payload.length - 5) ≠ [] := by
    apply List.ne_nil_of_length_pos
    rw [List.length_take, List.length_drop]
    omega
  refine ⟨?_, hne⟩
  set L := payload.length with hL
  set hi : Nat := (L &&& 0xFF00) >>> 8 with hhi
  set lo : Nat := L &&& 0x00FF with hlo
  have hhi2 : hi = L / 256 := by rw [hhi]; exact and_ff00_shiftRight_eq_div hlen
  have hlo2 : lo = L % 256 := by rw [hlo]; exact and_255_eq_mod L
  have hpl : hi * 256 + lo = L := by rw [hhi2, hlo2]; omega
  have htl : (payload ++ [chk, 0xDD]).length = L + 2 := by simp
  have hinp : (0xAA :: 0x02 :: 0x22 :: hi :: lo :: (payload ++ [chk, 0xDD]))
      = (0xAA :: 0x02 :: 0x22 :: hi :: lo :: payload) ++ [chk, 0xDD] := by
    simp
  have hilen : (0xAA :: 0x02 :: 0x22 :: hi :: lo :: (payload ++ [chk, 0xDD])).length
      = L + 7 := by
    simp
  have hpre : (0xAA :: 0x02 :: 0x22 :: hi :: lo :: payload).length = 5 + L := by
    simp
    omega
  have hdd : R200.idx (0xAA :: 0x02 :: 0x22 :: hi :: lo :: (payload ++ [chk, 0xDD]))
      (5 + L + 1) = 0xDD := by
    unfold R200.idx
    rw [hinp, List.getD_append_right _ _ _ _ (by rw [hpre]; omega), hpre]
    have hn : 5 + L + 1 - (5 + L) = 1 := by omega
    rw [hn]
    rfl
  have hce : R200.idx (0xAA :: 0x02 :: 0x22 :: hi :: lo :: (payload ++ [chk, 0xDD]))
      (5 + L) = chk := by
    unfold R200.idx
    rw [hinp, List.getD_append_right _ _ _ _ hpre.le, hpre]
    have hn : 5 + L - (5 + L) = 0 := by omega
    rw [hn]
    rfl
  have hca : (((0xAA :: 0x02 :: 0x22 :: hi :: lo :: (payload ++ [chk, 0xDD])).drop
        (5 - 4)).take (L + 4))
      = 0x02 :: 0x22 :: hi :: lo :: payload := by
    show (0x02 :: 0x22 :: hi :: lo :: (payload ++ [chk, 0xDD])).take (L + 4)
        = 0x02 :: 0x22 :: hi :: lo :: payload
    rw [List.take_succ_cons, List.take_succ_cons, List.take_succ_cons,
      List.take_succ_cons, List.take_left' hL.symm]
  have hbuf : (((0xAA :: 0x02 :: 0x22 :: hi :: lo :: (payload ++ [chk, 0xDD])).drop 5).take
        (L + 1)) = payload ++ [chk] := by
    show ((payload ++ [chk, 0xDD]).take (L + 1)) = payload ++ [chk]
    rw [List.take_append_eq_append_take, List.take_of_length_le (by omega), ← hL]
    have hn : L + 1 - L = 1 := by omega
    rw [hn]
    rfl
  have hps : R200.parse_single (payload ++ [chk]) = some ((payload.drop 3).take (L - 5)) := by
    unfold R200.parse_single
    rw [if_neg (by simp; omega)]
    have hlen2 : (payload ++ [chk]).length = L + 1 := by simp
    have hdrop : (payload ++ [chk]).drop 3 = payload.drop 3 ++ [chk] := by
      rw [List.drop_append_eq_append_drop, ← hL]
      have hn : 3 - L = 0 := by omega
      rw [hn]
      rfl
    rw [hlen2, hdrop]
    have hn : L + 1 - 3 - 3 = L - 5 := by omega
    rw [hn]
    have htake : (payload.drop 3 ++ [chk]).take (L - 5) = (payload.drop 3).take (L - 5) := by
      apply List.take_append_of_le_length
      rw [List.length_drop]
      omega
    rw [htake]
    rw [if_neg (by rw [List.length_take, List.length_drop]; omega)]
  rw [parse_header_steps 0x02 0x22 hi lo (payload ++ [chk, 0xDD]), htl, hpl]
  rw [parseLoop_state3_single _ (L + 3) 5 L false false
    (by rw [hilen]; omega) (by rw [hilen]; omega) hdd]
  rw [hce, hca, hbuf, hps]
  have hflag : (false || decide (chk
      ≠ (0x02 :: 0x22 :: hi :: lo :: payload).sum &&& 0xFF)) = true := by
    simp only [Bool.false_or, decide_eq_true_eq]
    exact hbad
  rw [hflag]
  rfl

/-- parseLoop in state 0 scans to the end of a buffer holding no start
marker and returns the empty result with the running flags. -/
theorem parseLoop_scan_no_marker (inp : List Nat) :
    ∀ (fuel pos mt mc pl : Nat) (ic pe : Bool), inp.length ≤ pos + fuel →
    (∀ b ∈ inp, b ≠ 0xAA) →
    R200.parseLoop inp fuel pos 0 mt mc pl ic pe = some ⟨[], ic, pe⟩ := by
  intro fuel
  induction fuel with
  | zero =>
    intro pos mt mc pl ic pe hf _
    exact parseLoop_exit _ _ _ _ _ _ _ _ _ (by omega)
  | succ fuel ih =>
    intro pos mt mc pl ic pe hf hb
    by_cases h : pos < inp.length
    · rw [parseLoop_state0_miss _ fuel pos mt mc pl ic pe h (hb _ (idx_mem inp pos h))]
      exact ih (pos + 1) mt mc pl ic pe (by omega) hb
    · exact parseLoop_exit _ _ _ _ _ _ _ _ _ h

/-- parseRespLoop terminates with the running flags once pos reaches the end. -/
theorem parseRespLoop_exit (inp : List Nat) (fuel pos state mt mc pl sb : Nat)
    (ic pe : Bool) (h : ¬ pos < inp.length) :
    SerialInterface.parseRespLoop inp fuel pos state mt mc pl sb ic pe
      = some ⟨[], ic, pe⟩ := by
  rw [SerialInterface.parseRespLoop.eq_def, if_neg h]

/-- parseRespLoop in state 0 on a byte that is neither start marker keeps
scanning. -/
theorem parseRespLoop_state0_miss (inp : List Nat) (fuel pos mt mc pl sb : Nat)
    (ic pe : Bool) (h : pos < inp.length)
    (hb : ¬ (R200.idx inp pos = 0xAA ∨ R200.idx inp pos = 0xBB)) :
    SerialInterface.parseRespLoop inp (fuel + 1) pos 0 mt mc pl sb ic pe
      = SerialInterface.parseRespLoop inp fuel (pos + 1) 0 mt mc pl sb ic pe := by
  rw [SerialInterface.parseRespLoop.eq_def, if_pos h]
  simp [hb]

/-- parseRespLoop in state 0 scans to the end of a buffer holding neither
start marker and returns the empty result with the running flags. -/
theorem parseRespLoop_scan_no_marker (inp : List Nat) :
    ∀ (fuel pos mt mc pl sb : Nat) (ic pe : Bool), inp.length ≤ pos + fuel →
    (∀ b ∈ inp, b ≠ 0xAA) → (∀ b ∈ inp, b ≠ 0xBB) →
    SerialInterface.parseRespLoop inp fuel pos 0 mt mc pl sb ic pe
      = some ⟨[], ic, pe⟩ := by
  intro fuel
  induction fuel with
  | zero =>
    intro pos mt mc pl sb ic pe hf _ _
    exact parseRespLoop_exit _ _ _ _ _ _ _ _ _ _ (by omega)
  | succ fuel ih =>
    intro pos mt mc pl sb ic pe hf hbA hbB
    by_cases h : pos < inp.length
    · rw [parseRespLoop_state0_miss _ fuel pos mt mc pl sb ic pe h ?_]
      · exact ih (pos + 1) mt mc pl sb ic pe (by omega) hbA hbB
      · rintro (hc | hc)
        · exact hbA _ (idx_mem inp pos h) hc
        · exact hbB _ (idx_mem inp pos h) hc
    · exact parseRespLoop_exit _ _ _ _ _ _ _ _ _ _ h

/-- C3 amended: on a buffer that contains no start marker at all, both
decoders return normally with the empty result (every byte is consumed by
the state-0 scan); but as soon as a start marker is followed by a truncated
header, length field or payload region, the scalar index accesses inp[pos+1]
and inp[pos+pl+1] are out of range and the decoders raise IndexError instead
of reporting the frame as incomplete. -/
theorem r200_parse_returns_empty_without_marker (inp : List Nat)
    (hA : 0xAA ∉ inp) :
    R200.parse inp = some ⟨[], false, false⟩ ∧
    (0xBB ∉ inp → SerialInterface.parse_response inp = some ⟨[], false, false⟩) := by
  constructor
  · unfold R200.parse
    exact parseLoop_scan_no_marker inp inp.length 0 0 0 0 false false (by omega)
      (fun b hb he => hA (he ▸ hb))
  · intro hB
    unfold SerialInterface.parse_response
    exact parseRespLoop_scan_no_marker inp inp.length 0 0 0 0 0 false false (by omega)
      (fun b hb he => hA (he ▸ hb)) (fun b hb he => hB (he ▸ hb))

/-- C3 amended witness: the marker-free buffer 01 02 is decoded to the empty
result by both decoders. -/
theorem r200_parse_returns_empty_without_marker_witness :
    (0xAA ∉ ([0x01, 0x02] : List Nat)) ∧ (0xBB ∉ ([0x01, 0x02] : List Nat)) ∧
    R200.parse [0x01, 0x02] = some ⟨[], false, false⟩ ∧
    SerialInterface.parse_response [0x01, 0x02] = some ⟨[], false, false⟩ :=
  ⟨by decide, by decide,
    (r200_parse_returns_empty_without_marker [0x01, 0x02] (by decide)).1,
    (r200_parse_returns_empty_without_marker [0x01, 0x02] (by decide)).2 (by decide)⟩

/-- C1 amended witness: the bad-checksum single-read frame over payload
01 02 03 04 05 06 with stored checksum byte 0x00. -/
theorem r200_parse_flags_but_returns_bad_checksum_payload_witness :
    (6 ≤ ([1, 2, 3, 4, 5, 6] : List Nat).length) ∧
    (([1, 2, 3, 4, 5, 6] : List Nat).length < 65536) ∧
    ((0 : Nat) ≠ (0x02 :: 0x22 :: ((([1, 2, 3, 4, 5, 6] : List Nat).length &&& 0xFF00) >>> 8) ::
        (([1, 2, 3, 4, 5, 6] : List Nat).length &&& 0x00FF) :: [1, 2, 3, 4, 5, 6]).sum &&& 0xFF) ∧
    (R200.parse (0xAA :: 0x02 :: 0x22 :: ((([1, 2, 3, 4, 5, 6] : List Nat).length &&& 0xFF00) >>> 8) ::
          (([1, 2, 3, 4, 5, 6] : List Nat).length &&& 0x00FF) :: ([1, 2, 3, 4, 5, 6] ++ [0, 0xDD]))
        = some ⟨(([1, 2, 3, 4, 5, 6] : List Nat).drop 3).take (([1, 2, 3, 4, 5, 6] : List Nat).length - 5), true, false⟩ ∧
      (([1, 2, 3, 4, 5, 6] : List Nat).drop 3).take (([1, 2, 3, 4, 5, 6] : List Nat).length - 5) ≠ []) :=
  ⟨by decide, by decide, by decide,
    r200_parse_flags_but_returns_bad_checksum_payload [1, 2, 3, 4, 5, 6] 0
      (by decide) (by decide) (by decide)⟩

/-- C2 amended witness: the encode/decode trace evaluated at command 0x22
with payload 01 02 (checksum byte 0x27, no spurious marker). -/
theorem r200_encode_decode_returns_empty_witness :
    ((0x22 : Nat) ≤ 255) ∧ (∀ b ∈ ([1, 2] : List Nat), b ≤ 255) ∧
    (([1, 2] : List Nat).length < 65536) ∧
    ((0xAA : Nat) ∉ ([1, 2] : List Nat)) ∧
    ((0x00 :: 0x22 :: ((([1, 2] : List Nat).length &&& 0xFF00) >>> 8) ::
        (([1, 2] : List Nat).length &&& 0x00FF) :: [1, 2]).sum &&& 0xFF ≠ 0xAA) ∧
    (R200.r200_command_bytes 0x22 [1, 2]
        = some (0xAA :: 0x00 :: 0x22 :: ((([1, 2] : List Nat).length &&& 0xFF00) >>> 8) ::
            (([1, 2] : List Nat).length &&& 0x00FF) ::
            ([1, 2] ++
              [(0x00 :: 0x22 :: ((([1, 2] : List Nat).length &&& 0xFF00) >>> 8) ::
                  (([1, 2] : List Nat).length &&& 0x00FF) :: [1, 2]).sum &&& 0xFF, 0xDD])) ∧
      R200.parse (0xAA :: 0x00 :: 0x22 :: ((([1, 2] : List Nat).length &&& 0xFF00) >>> 8) ::
            (([1, 2] : List Nat).length &&& 0x00FF) ::
            ([1, 2] ++
              [(0x00 :: 0x22 :: ((([1, 2] : List Nat).length &&& 0xFF00) >>> 8) ::
                  (([1, 2] : List Nat).length &&& 0x00FF) :: [1, 2]).sum &&& 0xFF, 0xDD]))
        = some ⟨[], false, false⟩) :=
  ⟨by decide, by decide, by decide, by decide, by decide,
    r200_encode_decode_returns_empty 0x22 [1, 2] (by decide) (by decide) (by decide)
      (by decide) (by decide)⟩
